import Mathlib

/-
Verification of the behavioral-telemetry pipeline of Student_Navigator.

Shallow embedding of the backend core:
  * src/backend/src/config/redis.ts          (Redis list buffer helpers)
  * src/backend/src/websocket/behaviorStream.ts
        (rate limiting, circuit breaker + in-memory fallback, CLR throttling)
  * src/backend/src/models/BehaviorEvent.ts  (EventAggregator feature scores)
  * the batch processor (BehaviorBatchProcessor) and the cognitive-load
    helpers of the services layer.

Redis lists are modeled as Lean lists with the HEAD of the Lean list being the
head of the Redis list, i.e. the side that lpush pushes onto and that
lrange key 0 -1 returns first. Stateful code is modeled by explicit state
passing; JavaScript numbers in the scorer are modeled over the rationals; a
fallible external call is modeled by an explicit outcome parameter.
-/

/-- redis.ts bufferBehaviorEvent, success path, single-session view: the event
is pushed with lpush onto the head of the list stored at key
behavior:sessionId.  (The TTL refresh via expire has no effect on list
contents and is not modeled; the error-swallowing behavior of this helper is
modeled separately by bufferBehaviorEventStore below.) -/
def bufferBehaviorEvent {α : Type} (e : α) (l : List α) : List α :=
  e :: l

/-- redis.ts getBehaviorEvents: lrange key 0 -1 returns the whole list, head
of the Redis list first, i.e. most recently pushed event first. -/
def getBehaviorEvents {α : Type} (l : List α) : List α :=
  l

/-- redis lpop: removes and returns the head of the list; on an empty key it
is a no-op. -/
def lpop {α : Type} : List α → List α
  | [] => []
  | _ :: xs => xs

/-- lpop iterated n times, as done by the cleanup loop of the batch
processor. -/
def lpopN {α : Type} : Nat → List α → List α
  | 0, l => l
  | n + 1, l => lpopN n (lpop l)

/-- BehaviorBatchProcessor.cleanupProcessedEvents (count is the number of
events processed this tick): lpop the key count times, then delete the key if
the remaining length is 0 (key deletion is the empty list in this model). -/
def cleanupProcessedEvents {α : Type} (count : Nat) (l : List α) : List α :=
  let l2 := lpopN count l
  if l2.length = 0 then [] else l2

/-- The read step of BehaviorBatchProcessor.processBatch: rawEvents =
getBehaviorEvents sessionId; eventsToProcess = rawEvents.slice 0
maxEventsPerBatch. -/
def readBatch {α : Type} (maxEventsPerBatch : Nat) (l : List α) : List α :=
  (getBehaviorEvents l).take maxEventsPerBatch

/-- A sequence of appends to one session buffer, in arrival order (first
element of evs arrives first). -/
def appendAll {α : Type} (l : List α) (evs : List α) : List α :=
  evs.foldl (fun b e => bufferBehaviorEvent e b) l

/-- An event as stored by the intake path: the session key it is buffered
under plus an abstract payload standing for the serialized event. -/
structure Ev where
  sessionId : String
  payload : Nat
deriving DecidableEq

/-- The module-level mutable state of behaviorStream.ts that the buffering
path touches, plus the Redis side: redisCircuitOpen / circuitOpenTime /
inMemoryFallbackQueue are the module globals, store maps a session id to the
Redis list at key behavior:sessionId (head = most recent lpush). -/
structure BufferState where
  redisCircuitOpen : Bool
  circuitOpenTime : Nat
  inMemoryFallbackQueue : List Ev
  store : String → List Ev

/-- redis.ts bufferBehaviorEvent with its failure behavior made explicit:
ok is the outcome of the redis lpush call.  The body is a try/catch whose
catch only logs, so a failed lpush leaves the store unchanged and NO error
reaches the caller — the helper never raises. -/
def bufferBehaviorEventStore (ok : Bool) (store : String → List Ev)
    (sid : String) (e : Ev) : String → List Ev :=
  if ok then fun k => if k = sid then e :: store k else store k
  else store

/-- behaviorStream.ts CIRCUIT_BREAKER_TIMEOUT. -/
def CIRCUIT_BREAKER_TIMEOUT : Nat := 30000

/-- behaviorStream.ts checkCircuitBreaker: closed breaker passes; an open
breaker passes (and closes) once now - circuitOpenTime exceeds the 30s
cooldown, and blocks otherwise.  Returns the pass flag and updated state. -/
def checkCircuitBreaker (now : Nat) (st : BufferState) : Bool × BufferState :=
  if st.redisCircuitOpen = false then (true, st)
  else if CIRCUIT_BREAKER_TIMEOUT < now - st.circuitOpenTime then
    (true, { st with redisCircuitOpen := false })
  else (false, st)

/-- behaviorStream.ts openCircuitBreaker: records the opening time when the
breaker is not already open. -/
def openCircuitBreaker (now : Nat) (st : BufferState) : BufferState :=
  if st.redisCircuitOpen = false then
    { st with redisCircuitOpen := true, circuitOpenTime := now }
  else st

/-- The fallback-drain loop of behaviorStream.ts bufferEvent: each queued
event is replayed through bufferBehaviorEvent in queue order; oks i is the
outcome of the i-th lpush issued during the enclosing bufferEvent call. -/
def flushFallback (oks : Nat → Bool) : Nat → (String → List Ev) → List Ev →
    (String → List Ev)
  | _, store, [] => store
  | i, store, e :: rest =>
      flushFallback oks (i + 1)
        (bufferBehaviorEventStore (oks i) store e.sessionId e) rest

/-- behaviorStream.ts bufferEvent.  If the breaker check fails, the event is
pushed onto the bounded fallback queue (capacity 10000, drop-oldest).
Otherwise the try-block runs: bufferBehaviorEvent for the event (lpush
outcome oks 0), then, if the fallback queue is nonempty, it is copied,
cleared and replayed (outcomes oks 1, oks 2, ...).  The catch-block — which
is the only caller of openCircuitBreaker and the only other push onto the
fallback queue — can never run, because bufferBehaviorEvent swallows its own
redis errors and never raises. -/
def bufferEvent (oks : Nat → Bool) (now : Nat) (st : BufferState) (e : Ev) :
    BufferState :=
  let c := checkCircuitBreaker now st
  let st1 := c.2
  if c.1 = false then
    let q := st1.inMemoryFallbackQueue ++ [e]
    { st1 with inMemoryFallbackQueue := if 10000 < q.length then q.drop 1 else q }
  else
    let store1 := bufferBehaviorEventStore (oks 0) st1.store e.sessionId e
    if 0 < st1.inMemoryFallbackQueue.length then
      { st1 with
          store := flushFallback oks 1 store1 st1.inMemoryFallbackQueue,
          inMemoryFallbackQueue := [] }
    else
      { st1 with store := store1 }

/-- A whole intake history: each call carries the event, the wall-clock time
of the call and the lpush outcomes for that call. -/
def runBufferEvents : List (Ev × Nat × (Nat → Bool)) → BufferState → BufferState
  | [], st => st
  | (e, now, oks) :: rest, st => runBufferEvents rest (bufferEvent oks now st e)

/-- Module state at process start: breaker closed, fallback queue empty,
empty Redis lists. -/
def initialBufferState : BufferState :=
  { redisCircuitOpen := false
    circuitOpenTime := 0
    inMemoryFallbackQueue := []
    store := fun _ => [] }

/-- BehaviorEvent.ts BehaviorEventType: the ten recognized event tags. -/
inductive BehaviorEventType
  | TASK_SWITCH
  | TYPING_PATTERN
  | SCROLL_BEHAVIOR
  | MOUSE_MOVEMENT
  | FOCUS_CHANGE
  | NAVIGATION
  | IDLE_TIME
  | QUIZ_ERROR
  | CONTENT_INTERACTION
  | TIME_TRACKING
deriving DecidableEq

/-- The part of a NormalizedBehaviorEvent that the EventAggregator feature
calculations read.  The eventData payload union is flattened onto the fields
the aggregator casts to: idleDuration is IdleTimeData.idleDuration (read on
IDLE_TIME events), duration is NavigationData.duration or
TimeTrackingData.duration (read on NAVIGATION and TIME_TRACKING events),
conceptId is TimeTrackingData.conceptId, and contentIdHasQuiz is the value of
ContentInteractionData.contentId.includes of the text quiz (read on
CONTENT_INTERACTION events).  JavaScript numbers are modeled over ℚ. -/
structure NEvent where
  eventType : BehaviorEventType
  timestamp : ℚ
  idleDuration : ℚ
  duration : ℚ
  conceptId : String
  contentIdHasQuiz : Bool
deriving DecidableEq

/-- Math.max over a nonempty spread Math.max (...xs); callers guard against
the empty case. -/
def listMaxQ : List ℚ → ℚ
  | [] => 0
  | x :: xs => xs.foldl max x

/-- Math.min over a nonempty spread Math.min (...xs); callers guard against
the empty case. -/
def listMinQ : List ℚ → ℚ
  | [] => 0
  | x :: xs => xs.foldl min x

/-- EventAggregator.calculateTaskSwitchingFreq.  The timeWindowMs parameter
defaults to 60000 in the source; every call site in the repository uses the
default, which is passed explicitly here.  Zero task switches give 0;
otherwise the count is scaled by timeWindowMs over the observed time span
(floored at 1 ms). -/
def calculateTaskSwitchingFreq (timeWindowMs : ℚ) (events : List NEvent) : ℚ :=
  let taskSwitches := events.filter
    (fun e => decide (e.eventType = BehaviorEventType.TASK_SWITCH))
  if taskSwitches.length = 0 then 0
  else
    let ts := taskSwitches.map (fun e => e.timestamp)
    let timeSpan := listMaxQ ts - listMinQ ts
    ((taskSwitches.length : ℚ) / max timeSpan 1) * timeWindowMs

/-- EventAggregator.calculateErrorRate: quiz errors over quiz interactions
(quiz errors plus content interactions whose contentId includes quiz). -/
def calculateErrorRate (events : List NEvent) : ℚ :=
  let quizErrors := events.filter
    (fun e => decide (e.eventType = BehaviorEventType.QUIZ_ERROR))
  let quizInteractions := events.filter
    (fun e => decide (e.eventType = BehaviorEventType.QUIZ_ERROR ∨
      (e.eventType = BehaviorEventType.CONTENT_INTERACTION ∧
        e.contentIdHasQuiz = true)))
  if quizInteractions.length = 0 then 0
  else (quizErrors.length : ℚ) / (quizInteractions.length : ℚ)

/-- EventAggregator.calculateBrowsingDriftScore: fraction of NAVIGATION
events with duration under 5000 ms. -/
def calculateBrowsingDriftScore (events : List NEvent) : ℚ :=
  let navEvents := events.filter
    (fun e => decide (e.eventType = BehaviorEventType.NAVIGATION))
  let rapidNavs := navEvents.filter (fun e => decide (e.duration < 5000))
  if navEvents.length = 0 then 0
  else (rapidNavs.length : ℚ) / (navEvents.length : ℚ)

/-- EventAggregator.calculateProcrastinationScore.  idleScore divides the
total idle time by 60000 (i.e. caps the idle contribution at one MINUTE of
idle time, although the inline source comment says Normalize to 1 hour),
switchScore caps the per-minute switch rate at 10, driftScore is the
browsing drift ratio scaled by 20. -/
def calculateProcrastinationScore (events : List NEvent) : ℚ :=
  let idleEvents := events.filter
    (fun e => decide (e.eventType = BehaviorEventType.IDLE_TIME))
  let totalIdleTime := (idleEvents.map (fun e => e.idleDuration)).sum
  let switchFreq := calculateTaskSwitchingFreq 60000 events
  let idleScore := min (totalIdleTime / 60000) 1 * 40
  let switchScore := min (switchFreq / 10) 1 * 40
  let driftScore := calculateBrowsingDriftScore events * 20
  idleScore + switchScore + driftScore

/-- EventAggregator.calculateAvgTimePerConcept: mean duration of
TIME_TRACKING events, 0 when there are none. -/
def calculateAvgTimePerConcept (events : List NEvent) : ℚ :=
  let timeEvents := events.filter
    (fun e => decide (e.eventType = BehaviorEventType.TIME_TRACKING))
  if timeEvents.length = 0 then 0
  else (timeEvents.map (fun e => e.duration)).sum / (timeEvents.length : ℚ)

/-- The night check of EventAggregator.calculateProductivityScore: the source
computes currentHour as new Date().getHours() — the ambient wall clock at the
moment the scorer runs, NOT a timestamp carried by the events and NOT an
explicitly passed now.  The hour is therefore made an explicit parameter of
the model so that the dependence is visible. -/
def isNightTime (currentHour : Nat) : Bool :=
  decide (22 ≤ currentHour) || decide (currentHour < 6)

/-- EventAggregator.calculateProductivityScore: the ratio of active events
(typing, content interaction, time tracking) to all events, scaled to 100,
multiplied by a 0.8 penalty when the ambient wall-clock hour is in the night
band 22:00 to 06:00.  currentHour models new Date().getHours(). -/
def calculateProductivityScore (currentHour : Nat) (events : List NEvent) : ℚ :=
  let activeEvents := events.filter
    (fun e => decide (e.eventType = BehaviorEventType.TYPING_PATTERN ∨
      e.eventType = BehaviorEventType.CONTENT_INTERACTION ∨
      e.eventType = BehaviorEventType.TIME_TRACKING))
  let activityRatio := (activeEvents.length : ℚ) / max (events.length : ℚ) 1
  let nightPenalty : ℚ := if isNightTime currentHour then 8 / 10 else 1
  activityRatio * 100 * nightPenalty

/-- calculateCognitiveLoadScore of the cognitive-load helper module: weighted
blend of five normalized features (task switching 0.25, error rate 0.20,
procrastination 0.20, browsing drift 0.15, productivity inverted 0.20),
clamped to the range 0 to 100; an empty batch scores 0.  currentHour is the
ambient wall-clock hour read inside calculateProductivityScore. -/
def calculateCognitiveLoadScore (currentHour : Nat) (events : List NEvent) : ℚ :=
  if events.length = 0 then 0
  else
    let taskSwitching := calculateTaskSwitchingFreq 60000 events
    let errorRate := calculateErrorRate events
    let procrastination := calculateProcrastinationScore events
    let browsingDrift := calculateBrowsingDriftScore events
    let productivity := calculateProductivityScore currentHour events
    let normalizedTaskSwitching := min (taskSwitching * 10) 100
    let normalizedErrorRate := errorRate * 100
    let normalizedProcrastination := min procrastination 100
    let normalizedBrowsingDrift := browsingDrift * 100
    let normalizedProductivity := 100 - productivity
    let cognitiveLoad :=
      normalizedTaskSwitching * (25 / 100) +
      normalizedErrorRate * (20 / 100) +
      normalizedProcrastination * (20 / 100) +
      normalizedBrowsingDrift * (15 / 100) +
      normalizedProductivity * (20 / 100)
    min (max cognitiveLoad 0) 100

/-- A batch holding one typing event, used to exhibit the wall-clock
dependence of the scorer. -/
def typingOnlyBatch : List NEvent :=
  [⟨BehaviorEventType.TYPING_PATTERN, 0, 0, 0, "", false⟩]

/-- The procrastination blend exactly as the specification words it: 40% of
the total idle duration normalized with a cap at 1 hour (3600000 ms), plus
40% of the task-switch rate normalized with a cap at 10 per minute, plus 20%
of the browsing-drift ratio. -/
def specProcrastinationBlend (events : List NEvent) : ℚ :=
  let idleEvents := events.filter
    (fun e => decide (e.eventType = BehaviorEventType.IDLE_TIME))
  let totalIdleTime := (idleEvents.map (fun e => e.idleDuration)).sum
  let switchFreq := calculateTaskSwitchingFreq 60000 events
  min (totalIdleTime / 3600000) 1 * 40 + min (switchFreq / 10) 1 * 40 +
    calculateBrowsingDriftScore events * 20

/-- A batch holding a single idle event of 120000 ms (two minutes) of idle
time and nothing else. -/
def twoMinuteIdleBatch : List NEvent :=
  [⟨BehaviorEventType.IDLE_TIME, 0, 120000, 0, "", false⟩]

/-- behaviorStream.ts RATE_LIMIT_WINDOW (1 second). -/
def RATE_LIMIT_WINDOW : Nat := 1000

/-- behaviorStream.ts RATE_LIMIT_MAX_EVENTS (max events per second per
session). -/
def RATE_LIMIT_MAX_EVENTS : Nat := 100

/-- One entry of rateLimitMap: the per-session event count and window-reset
time. -/
structure RateLimitEntry where
  count : Nat
  resetTime : Nat
deriving DecidableEq

/-- behaviorStream.ts checkRateLimit, for one sessionId key: a missing or
expired entry resets the window (count 1, resetTime now + 1s) and passes;
at RATE_LIMIT_MAX_EVENTS or above the call fails and the entry is untouched;
otherwise the count is incremented and the call passes.  Returns the pass
flag and the entry stored in the map after the call. -/
def checkRateLimit (now : Nat) (entry : Option RateLimitEntry) :
    Bool × RateLimitEntry :=
  match entry with
  | none => (true, ⟨1, now + RATE_LIMIT_WINDOW⟩)
  | some limit =>
      if limit.resetTime < now then (true, ⟨1, now + RATE_LIMIT_WINDOW⟩)
      else if RATE_LIMIT_MAX_EVENTS ≤ limit.count then (false, limit)
      else (true, ⟨limit.count + 1, limit.resetTime⟩)

/-- Acknowledgment outcomes of handleBehaviorEvent that matter here:
success, the RATE_LIMIT_EXCEEDED rejection, the VALIDATION_ERROR
rejection. -/
inductive Ack
  | success
  | RATE_LIMIT_EXCEEDED
  | VALIDATION_ERROR
deriving DecidableEq

/-- behaviorStream.ts handleBehaviorEvent for one session, reduced to the
control flow the rate-limit claim is about: the rate limit is checked first
and a rejected event is acked RATE_LIMIT_EXCEEDED and returned BEFORE
bufferEvent runs, so it is never buffered; then validation; an accepted
valid event is buffered (lpush onto the session buffer).  valid stands for
validateBehaviorEvent data; buffer is the session buffer and e the event
payload. -/
def handleBehaviorEvent (valid : Bool) (now : Nat)
    (entry : Option RateLimitEntry) (buffer : List Nat) (e : Nat) :
    Ack × RateLimitEntry × List Nat :=
  let rl := checkRateLimit now entry
  if rl.1 = false then (Ack.RATE_LIMIT_EXCEEDED, rl.2, buffer)
  else if valid = false then (Ack.VALIDATION_ERROR, rl.2, buffer)
  else (Ack.success, rl.2, bufferBehaviorEvent e buffer)

/-- A sequence of single-event submissions for one session: each call is a
pair (arrival time, event payload); all events are assumed valid.  Returns
the acks in order, the final rate-limit entry and the final buffer. -/
def runSubmissions : List (Nat × Nat) → Option RateLimitEntry → List Nat →
    List Ack × Option RateLimitEntry × List Nat
  | [], entry, buf => ([], entry, buf)
  | (now, e) :: rest, entry, buf =>
      let r := handleBehaviorEvent true now entry buf e
      let rr := runSubmissions rest (some r.2.1) r.2.2
      (r.1 :: rr.1, rr.2.1, rr.2.2)

/-- behaviorStream.ts CLR_UPDATE_INTERVAL (minimum spacing between delivered
live updates per student). -/
def CLR_UPDATE_INTERVAL : Nat := 30000

/-- The per-student slice of the distributor state: the clrUpdateThrottle
entry for the student and the studentConnections socket set (as a list). -/
structure DistributorState where
  lastUpdate : Option Nat
  connections : List String
deriving DecidableEq

/-- behaviorStream.ts broadcastCLRUpdate for one studentId: first the
throttle check (a stored timestamp counts only when it is nonzero —
JavaScript truthiness of lastUpdate — and within CLR_UPDATE_INTERVAL of
now); a throttled call changes nothing and emits nothing.  Otherwise the
throttle timestamp is set to now FIRST, and only then are the connections
looked up: with no registered sockets nothing is emitted (but the timestamp
stays recorded); otherwise the update is emitted to every registered socket.
Returns the new state and the list of sockets emitted to.  (JavaScript
computes now - lastUpdate as a possibly negative number; for now < lastUpdate
both that negative value and the truncated Nat subtraction are below the
interval, so the model agrees with the source there.) -/
def broadcastCLRUpdate (now : Nat) (st : DistributorState) :
    DistributorState × List String :=
  let throttled :=
    match st.lastUpdate with
    | some lu => decide (lu ≠ 0) && decide (now - lu < CLR_UPDATE_INTERVAL)
    | none => false
  if throttled = true then (st, [])
  else
    let st1 := { st with lastUpdate := some now }
    if st1.connections.length = 0 then (st1, [])
    else (st1, st1.connections)

/-- Outcome of one attempt of the try-block inside
BehaviorBatchProcessor.persistAggregatedData (the prisma
cognitiveMetric.create call): success, a P2002 unique-constraint violation,
or any other failure. -/
inductive DbOutcome
  | ok
  | uniqueViolation
  | otherError
deriving DecidableEq

/-- Result of persistAggregatedData as observed by its caller: a normal
return (create succeeded, or P2002 treated as already-written, both plain
returns in the source), a skip because the session row does not exist
(warn and return), or the terminal throw after exhausting the retries. -/
inductive PersistResult
  | success
  | skippedNoSession
  | terminalFailure
deriving DecidableEq

/-- BehaviorBatchProcessor.persistAggregatedData maxRetries. -/
def maxRetries : Nat := 3

/-- The retry loop of BehaviorBatchProcessor.persistAggregatedData.
attempt is the loop counter (starts at 0), fuel = maxRetries - attempt keeps
the recursion structural; outcomes k is the result of the try-block of the
iteration whose counter is k.  Loop body: missing session returns
skippedNoSession; a successful create returns; a P2002 is treated as success
(already written) with NO retry; any other error increments the counter,
throws terminally once it reaches maxRetries, and otherwise sleeps
2 ^ attempt seconds (recorded in the returned delay list, in ms) and loops.
The source loop can only exit through one of these returns or the throw, so
the fuel-exhausted branch is unreachable from persistAggregatedData. -/
def persistGo (sessionExists : Bool) (outcomes : Nat → DbOutcome) :
    Nat → Nat → PersistResult × List Nat
  | _, 0 => (PersistResult.terminalFailure, [])
  | attempt, fuel + 1 =>
      if sessionExists = false then (PersistResult.skippedNoSession, [])
      else
        match outcomes attempt with
        | DbOutcome.ok => (PersistResult.success, [])
        | DbOutcome.uniqueViolation => (PersistResult.success, [])
        | DbOutcome.otherError =>
            if maxRetries ≤ attempt + 1 then (PersistResult.terminalFailure, [])
            else
              let r := persistGo sessionExists outcomes (attempt + 1) fuel
              (r.1, (2 ^ (attempt + 1) * 1000) :: r.2)

/-- BehaviorBatchProcessor.persistAggregatedData: run the retry loop from
attempt 0. -/
def persistAggregatedData (sessionExists : Bool) (outcomes : Nat → DbOutcome) :
    PersistResult × List Nat :=
  persistGo sessionExists outcomes 0 maxRetries

/-- Whether BehaviorBatchProcessor.processBatch raises for a given session:
fails abstracts every per-session failure source of processBatch (the read,
the aggregation, the persistence — including a persistAggregatedData that
exhausted its retries — and the statistics update). -/
def processBatchEx (fails : String → Bool) (sid : String) : Except String Unit :=
  if fails sid = true then Except.error sid else Except.ok ()

/-- The per-session loop of BehaviorBatchProcessor.processAllSessions: each
enumerated session is attempted inside its own try/catch; a failure is
counted and logged and the loop CONTINUES with the next session.  Returns
the sessions attempted (in order) and the failure count. -/
def mainSweep (fails : String → Bool) : List String → List String × Nat
  | [] => ([], 0)
  | sid :: rest =>
      match processBatchEx fails sid with
      | Except.ok _ =>
          let r := mainSweep fails rest
          (sid :: r.1, r.2)
      | Except.error _ =>
          let r := mainSweep fails rest
          (sid :: r.1, r.2 + 1)

/-- BehaviorBatchProcessor.processPendingFlushSessions: ONE try/catch wraps
the whole for-loop over the pending-flush set; each successfully processed
session is removed from the set (srem), but a processBatch failure aborts
the loop — the remaining pending sessions are not attempted this tick and
neither the failed nor the remaining sessions are removed from the set.  The
surrounding catch only logs, so nothing propagates to the tick.  Returns the
sessions attempted (in order) and the sessions removed from the pending
set. -/
def pendingDrain (fails : String → Bool) : List String → List String × List String
  | [] => ([], [])
  | sid :: rest =>
      match processBatchEx fails sid with
      | Except.error _ => ([sid], [])
      | Except.ok _ =>
          let r := pendingDrain fails rest
          (sid :: r.1, sid :: r.2)

theorem appendAll_eq {α : Type} (evs l : List α) :
    appendAll l evs = evs.reverse ++ l := by
  induction evs generalizing l with
  | nil => simp [appendAll]
  | cons e rest ih =>
      simp only [appendAll, List.foldl_cons] at *
      rw [ih (bufferBehaviorEvent e l)]
      simp [bufferBehaviorEvent]

theorem lpopN_eq_drop {α : Type} (n : Nat) (l : List α) :
    lpopN n l = l.drop n := by
  induction n generalizing l with
  | zero => simp [lpopN]
  | succ m ih =>
      cases l with
      | nil => simp [lpopN, lpop, ih]
      | cons x xs => simp [lpopN, lpop, ih]

theorem cleanupProcessedEvents_eq_drop {α : Type} (count : Nat) (l : List α) :
    cleanupProcessedEvents count l = l.drop count := by
  unfold cleanupProcessedEvents
  rw [lpopN_eq_drop]
  by_cases h : (l.drop count).length = 0
  · simp only [h, if_true]
    exact (List.eq_nil_of_length_eq_zero h).symm
  · simp only [h, if_false]

/-- C3 counterexample.  The claim says a tick reads the OLDEST buffered events
first and removes exactly those from the front.  On the code: event 1 arrives,
then event 2; lrange returns [2, 1] (newest first), a tick with maxCount = 1
reads [2] — the newest event, not the oldest — and the cleanup lpop removes 2,
leaving the oldest event 1 unprocessed in the buffer.  So consumption is
newest-first, refuting oldest-first FIFO. -/
theorem c3_counterexample :
    getBehaviorEvents (appendAll ([] : List Nat) [1, 2]) = [2, 1] ∧
    readBatch 1 (appendAll ([] : List Nat) [1, 2]) = [2] ∧
    cleanupProcessedEvents 1 (appendAll ([] : List Nat) [1, 2]) = [1] ∧
    (2 : Nat) ≠ 1 := by
  refine ⟨rfl, rfl, ?_, by decide⟩
  rw [cleanupProcessedEvents_eq_drop]
  rfl

/-- C3 amended: the session buffer is a stack (LIFO), not a FIFO queue.
bufferBehaviorEvent pushes at the head of the Redis list, so after the
arrival sequence evs the buffer is evs.reverse; a tick reads the first n
elements of that, i.e. the NEWEST n events (newest first); and the cleanup
lpop loop removes exactly those n events from the same head, leaving the
oldest events in the buffer. -/
theorem c3_amended_lifo {α : Type} (evs : List α) (n : Nat) :
    getBehaviorEvents (appendAll ([] : List α) evs) = evs.reverse ∧
    readBatch n (appendAll ([] : List α) evs) = evs.reverse.take n ∧
    cleanupProcessedEvents n (appendAll ([] : List α) evs) = evs.reverse.drop n := by
  refine ⟨?_, ?_, ?_⟩
  · rw [getBehaviorEvents, appendAll_eq, List.append_nil]
  · rw [readBatch, getBehaviorEvents, appendAll_eq, List.append_nil]
  · rw [cleanupProcessedEvents_eq_drop, appendAll_eq, List.append_nil]

/-- C2 counterexample.  Snapshot: the buffer holds event 1; the tick reads it
(count = 1).  During processing, event 2 is appended concurrently (lpush puts
it at the head).  The cleanup then lpops count = 1 element from the head:
that element is the concurrently appended event 2, which therefore does NOT
survive in the buffer — the read event 1 survives in its place.  This refutes
the part of the claim stating that concurrently appended events survive. -/
theorem c2_counterexample :
    readBatch 1000 (appendAll ([] : List Nat) [1]) = [1] ∧
    cleanupProcessedEvents 1 (appendAll (appendAll ([] : List Nat) [1]) [2]) = [1] ∧
    2 ∉ cleanupProcessedEvents 1 (appendAll (appendAll ([] : List Nat) [1]) [2]) := by
  have h : cleanupProcessedEvents 1 (appendAll (appendAll ([] : List Nat) [1]) [2]) = [1] := by
    rw [cleanupProcessedEvents_eq_drop]
    rfl
  refine ⟨rfl, h, ?_⟩
  rw [h]
  decide

/-- C2 amended: with L the buffer snapshot at the start of the tick, n the max
batch size and new the events appended concurrently during processing
(arrival order), the cleanup removes exactly count = |readBatch n L| elements
from the head of the live buffer: it never removes more elements than were
read, and it never clears the buffer wholesale (whenever more events exist
than were read, the buffer stays nonempty) — but the removed elements are the
most recently pushed ones, so the count bound holds while the surviving
events are the oldest ones rather than the concurrent arrivals. -/
theorem c2_amended {α : Type} (L new : List α) (n : Nat) :
    cleanupProcessedEvents (readBatch n L).length (appendAll L new)
      = (appendAll L new).drop (readBatch n L).length ∧
    (appendAll L new).length
        - (cleanupProcessedEvents (readBatch n L).length (appendAll L new)).length
      ≤ (readBatch n L).length ∧
    ((readBatch n L).length < (appendAll L new).length →
      cleanupProcessedEvents (readBatch n L).length (appendAll L new) ≠ []) := by
  refine ⟨cleanupProcessedEvents_eq_drop _ _, ?_, ?_⟩
  · rw [cleanupProcessedEvents_eq_drop, List.length_drop]
    omega
  · intro hlt
    rw [cleanupProcessedEvents_eq_drop]
    intro hnil
    have := List.length_drop ((readBatch n L).length) (appendAll L new)
    rw [hnil] at this
    simp at this
    omega

/-- Closed witness for c2_amended at a concrete interleaving. -/
theorem c2_amended_witness :
    (readBatch 1000 (appendAll ([] : List Nat) [1])).length
        < (appendAll (appendAll ([] : List Nat) [1]) [2]).length ∧
    cleanupProcessedEvents (readBatch 1000 (appendAll ([] : List Nat) [1])).length
        (appendAll (appendAll ([] : List Nat) [1]) [2]) ≠ [] := by
  refine ⟨by decide, ?_⟩
  exact (c2_amended (appendAll ([] : List Nat) [1]) [2] 1000).2.2 (by decide)

theorem bufferEvent_preserves_closed_empty (oks : Nat → Bool) (now : Nat)
    (st : BufferState) (e : Ev)
    (h1 : st.redisCircuitOpen = false) (h2 : st.inMemoryFallbackQueue = []) :
    (bufferEvent oks now st e).redisCircuitOpen = false ∧
    (bufferEvent oks now st e).inMemoryFallbackQueue = [] := by
  unfold bufferEvent checkCircuitBreaker
  simp [h1, h2]

theorem runBufferEvents_closed_empty (calls : List (Ev × Nat × (Nat → Bool)))
    (st : BufferState)
    (h1 : st.redisCircuitOpen = false) (h2 : st.inMemoryFallbackQueue = []) :
    (runBufferEvents calls st).redisCircuitOpen = false ∧
    (runBufferEvents calls st).inMemoryFallbackQueue = [] := by
  induction calls generalizing st with
  | nil => exact ⟨h1, h2⟩
  | cons c rest ih =>
      obtain ⟨e, now, oks⟩ := c
      have h := bufferEvent_preserves_closed_empty oks now st e h1 h2
      exact ih (bufferEvent oks now st e) h.1 h.2

/-- C1: the claimed circuit-breaker behavior is unreachable in the code.
First conjunct, the failing input evaluated: from the initial state, an
append whose durable lpush fails (outcome false) leaves the breaker closed,
the fallback queue empty and the Redis list for the session empty — the event
is dropped, it is routed nowhere.  Second conjunct: over EVERY intake
history, with arbitrary lpush outcomes and call times, the breaker is never
open and the fallback queue is never nonempty after any call, because
bufferBehaviorEvent (redis.ts) catches and swallows its own errors, so the
catch in bufferEvent that would call openCircuitBreaker and enqueue into the
fallback never runs. -/
theorem c1_write_failure_never_opens_breaker :
    ((bufferEvent (fun _ => false) 1000 initialBufferState ⟨"s1", 0⟩).redisCircuitOpen
        = false ∧
      (bufferEvent (fun _ => false) 1000 initialBufferState ⟨"s1", 0⟩).inMemoryFallbackQueue
        = [] ∧
      (bufferEvent (fun _ => false) 1000 initialBufferState ⟨"s1", 0⟩).store "s1"
        = []) ∧
    ∀ calls : List (Ev × Nat × (Nat → Bool)),
      (runBufferEvents calls initialBufferState).redisCircuitOpen = false ∧
      (runBufferEvents calls initialBufferState).inMemoryFallbackQueue = [] := by
  constructor
  · refine ⟨rfl, rfl, ?_⟩
    rfl
  · intro calls
    exact runBufferEvents_closed_empty calls initialBufferState rfl rfl

/-- C4 counterexample.  The identical ordered batch, scored in two runs whose
only difference is the ambient wall-clock hour (noon versus 3 AM): the
productivity feature differs (100 versus 80, night penalty) and so does the
composite score (0 versus 4).  The scorer therefore depends on a hidden wall
clock that is neither an event timestamp nor an explicitly passed now,
refuting the determinism claim. -/
theorem c4_counterexample :
    calculateProductivityScore 12 typingOnlyBatch = 100 ∧
    calculateProductivityScore 3 typingOnlyBatch = 80 ∧
    calculateCognitiveLoadScore 12 typingOnlyBatch = 0 ∧
    calculateCognitiveLoadScore 3 typingOnlyBatch = 4 ∧
    calculateCognitiveLoadScore 12 typingOnlyBatch
      ≠ calculateCognitiveLoadScore 3 typingOnlyBatch := by
  have hact : typingOnlyBatch.filter
      (fun e => decide (e.eventType = BehaviorEventType.TYPING_PATTERN ∨
        e.eventType = BehaviorEventType.CONTENT_INTERACTION ∨
        e.eventType = BehaviorEventType.TIME_TRACKING)) = typingOnlyBatch := rfl
  have hts : calculateTaskSwitchingFreq 60000 typingOnlyBatch = 0 := rfl
  have herr : calculateErrorRate typingOnlyBatch = 0 := rfl
  have hdrift : calculateBrowsingDriftScore typingOnlyBatch = 0 := rfl
  have hidle : typingOnlyBatch.filter
      (fun e => decide (e.eventType = BehaviorEventType.IDLE_TIME)) = [] := rfl
  have hproc : calculateProcrastinationScore typingOnlyBatch = 0 := by
    simp only [calculateProcrastinationScore, hidle, hts, hdrift]
    norm_num [min_def]
  have h12 : calculateProductivityScore 12 typingOnlyBatch = 100 := by
    simp only [calculateProductivityScore, hact]
    norm_num [typingOnlyBatch, isNightTime, max_def]
  have h3 : calculateProductivityScore 3 typingOnlyBatch = 80 := by
    simp only [calculateProductivityScore, hact]
    norm_num [typingOnlyBatch, isNightTime, max_def]
  have c12 : calculateCognitiveLoadScore 12 typingOnlyBatch = 0 := by
    simp only [calculateCognitiveLoadScore, hts, herr, hproc, hdrift, h12]
    norm_num [typingOnlyBatch, min_def, max_def]
  have c3 : calculateCognitiveLoadScore 3 typingOnlyBatch = 4 := by
    simp only [calculateCognitiveLoadScore, hts, herr, hproc, hdrift, h3]
    norm_num [typingOnlyBatch, min_def, max_def]
  refine ⟨h12, h3, c12, c3, ?_⟩
  rw [c12, c3]
  norm_num

/-- C4 amended: the scorer is deterministic in the event batch TOGETHER WITH
the ambient wall-clock hour.  Five of the six feature scores
(calculateTaskSwitchingFreq, calculateErrorRate,
calculateProcrastinationScore, calculateBrowsingDriftScore,
calculateAvgTimePerConcept) take only the batch, as their signatures show;
the productivity feature and the composite also read the wall-clock hour
through the night-band penalty, and two runs over the identical batch agree
exactly when their wall-clock hours lie on the same side of the night band
22:00 to 06:00. -/
theorem c4_amended (events : List NEvent) (h1 h2 : Nat)
    (hnight : isNightTime h1 = isNightTime h2) :
    calculateProductivityScore h1 events = calculateProductivityScore h2 events ∧
    calculateCognitiveLoadScore h1 events = calculateCognitiveLoadScore h2 events := by
  have hp : calculateProductivityScore h1 events
      = calculateProductivityScore h2 events := by
    unfold calculateProductivityScore
    rw [hnight]
  refine ⟨hp, ?_⟩
  unfold calculateCognitiveLoadScore
  rw [hp]

/-- Closed witness for c4_amended: two daytime hours. -/
theorem c4_amended_witness :
    isNightTime 10 = isNightTime 14 ∧
    calculateCognitiveLoadScore 10 typingOnlyBatch
      = calculateCognitiveLoadScore 14 typingOnlyBatch :=
  ⟨by decide, (c4_amended typingOnlyBatch 10 14 (by decide)).2⟩

/-- C5: the code divides the total idle time by 60000 ms — saturating the
idle term already at one MINUTE of idle — while its own inline comment says
Normalize to 1 hour, which is also what the claim states.  On a batch with
two minutes of idle time and no task switches or navigation, the code yields
40 (idle term saturated), whereas the documented 1-hour normalization yields
40 * (120000 / 3600000) = 4/3. -/
theorem c5_code_divergence :
    calculateProcrastinationScore twoMinuteIdleBatch = 40 ∧
    specProcrastinationBlend twoMinuteIdleBatch = 4 / 3 ∧
    calculateProcrastinationScore twoMinuteIdleBatch
      ≠ specProcrastinationBlend twoMinuteIdleBatch := by
  have hts : calculateTaskSwitchingFreq 60000 twoMinuteIdleBatch = 0 := rfl
  have hdrift : calculateBrowsingDriftScore twoMinuteIdleBatch = 0 := rfl
  have hidle : twoMinuteIdleBatch.filter
      (fun e => decide (e.eventType = BehaviorEventType.IDLE_TIME))
      = twoMinuteIdleBatch := rfl
  have hcode : calculateProcrastinationScore twoMinuteIdleBatch = 40 := by
    simp only [calculateProcrastinationScore, hidle, hts, hdrift]
    norm_num [twoMinuteIdleBatch, min_def]
  have hspec : specProcrastinationBlend twoMinuteIdleBatch = 4 / 3 := by
    simp only [specProcrastinationBlend, hidle, hts, hdrift]
    norm_num [twoMinuteIdleBatch, min_def]
  refine ⟨hcode, hspec, ?_⟩
  rw [hcode, hspec]
  norm_num

theorem handleBehaviorEvent_accept (now c r : Nat) (buf : List Nat) (e : Nat)
    (h1 : ¬ r < now) (h2 : c < RATE_LIMIT_MAX_EVENTS) :
    handleBehaviorEvent true now (some ⟨c, r⟩) buf e
      = (Ack.success, ⟨c + 1, r⟩, e :: buf) := by
  have h2n : ¬ RATE_LIMIT_MAX_EVENTS ≤ c := by omega
  simp [handleBehaviorEvent, checkRateLimit, h1, h2n, bufferBehaviorEvent]

theorem runSubmissions_accepts (calls rest : List (Nat × Nat)) (c r : Nat)
    (buf : List Nat)
    (hle : ∀ p ∈ calls, (p : Nat × Nat).1 ≤ r)
    (hcap : c + calls.length ≤ RATE_LIMIT_MAX_EVENTS) :
    runSubmissions (calls ++ rest) (some ⟨c, r⟩) buf
      = (List.replicate calls.length Ack.success
           ++ (runSubmissions rest (some ⟨c + calls.length, r⟩)
                 (appendAll buf (calls.map Prod.snd))).1,
         (runSubmissions rest (some ⟨c + calls.length, r⟩)
            (appendAll buf (calls.map Prod.snd))).2) := by
  induction calls generalizing c buf with
  | nil => simp [appendAll]
  | cons p ps ih =>
      obtain ⟨now, e⟩ := p
      have hnow : now ≤ r := hle (now, e) (by simp)
      have h1 : ¬ r < now := by omega
      have h2 : c < RATE_LIMIT_MAX_EVENTS := by
        simp only [List.length_cons] at hcap
        omega
      have hstep := handleBehaviorEvent_accept now c r buf e h1 h2
      have hles : ∀ p ∈ ps, (p : Nat × Nat).1 ≤ r := by
        intro q hq
        exact hle q (by simp [hq])
      have hcaps : (c + 1) + ps.length ≤ RATE_LIMIT_MAX_EVENTS := by
        simp only [List.length_cons] at hcap
        omega
      simp only [List.cons_append, runSubmissions, hstep, List.append_eq]
      rw [ih (c + 1) (e :: buf) hles hcaps]
      simp only [List.length_cons, List.replicate_succ, List.cons_append,
        List.map_cons]
      have hn : c + 1 + ps.length = c + (ps.length + 1) := by omega
      rw [hn]
      rfl

/-- C6: 101 single-event submissions for one session inside a 900 ms span,
starting with no rate-limit entry: the first submission opens the 1 s window
(resetTime = t0 + 1000), the first 100 submissions are all acked success and
buffered, the 101st is acked RATE_LIMIT_EXCEEDED and the buffer is left
exactly as after the first 100 (the rejected event is never buffered); and
any later submission strictly after the window reset time is accepted
again. -/
theorem c6_rate_limit (t0 e0 t101 e101 tNext eNext : Nat)
    (mid : List (Nat × Nat)) (buf0 bufAny : List Nat)
    (hmidlen : mid.length = 99)
    (hmid : ∀ p ∈ mid, t0 ≤ (p : Nat × Nat).1 ∧ (p : Nat × Nat).1 ≤ t0 + 900)
    (h101a : t0 ≤ t101) (h101b : t101 ≤ t0 + 900)
    (hnext : t0 + RATE_LIMIT_WINDOW < tNext) :
    runSubmissions ((t0, e0) :: mid ++ [(t101, e101)]) none buf0
      = (List.replicate 100 Ack.success ++ [Ack.RATE_LIMIT_EXCEEDED],
         some ⟨100, t0 + RATE_LIMIT_WINDOW⟩,
         appendAll buf0 (e0 :: mid.map Prod.snd)) ∧
    (handleBehaviorEvent true tNext (some ⟨100, t0 + RATE_LIMIT_WINDOW⟩)
        bufAny eNext).1 = Ack.success := by
  constructor
  · have hfirst : handleBehaviorEvent true t0 none buf0 e0
        = (Ack.success, ⟨1, t0 + RATE_LIMIT_WINDOW⟩, e0 :: buf0) := by
      simp [handleBehaviorEvent, checkRateLimit, bufferBehaviorEvent]
    have hmidle : ∀ p ∈ mid, (p : Nat × Nat).1 ≤ t0 + RATE_LIMIT_WINDOW := by
      intro p hp
      have := (hmid p hp).2
      simp only [RATE_LIMIT_WINDOW]
      omega
    have hcap : 1 + mid.length ≤ RATE_LIMIT_MAX_EVENTS := by
      simp [hmidlen, RATE_LIMIT_MAX_EVENTS]
    have hlast : handleBehaviorEvent true t101
        (some ⟨100, t0 + RATE_LIMIT_WINDOW⟩)
        (appendAll (e0 :: buf0) (mid.map Prod.snd)) e101
        = (Ack.RATE_LIMIT_EXCEEDED, ⟨100, t0 + RATE_LIMIT_WINDOW⟩,
           appendAll (e0 :: buf0) (mid.map Prod.snd)) := by
      have hnl : ¬ t0 + RATE_LIMIT_WINDOW < t101 := by
        simp only [RATE_LIMIT_WINDOW]
        omega
      simp [handleBehaviorEvent, checkRateLimit, hnl, RATE_LIMIT_MAX_EVENTS]
    simp only [List.cons_append, runSubmissions, hfirst, List.append_eq]
    rw [runSubmissions_accepts mid [(t101, e101)] 1 (t0 + RATE_LIMIT_WINDOW)
      (e0 :: buf0) hmidle hcap]
    simp only [runSubmissions, hmidlen, hlast, Prod.mk.injEq]
    refine ⟨by decide, trivial, rfl⟩
  · have hroll : t0 + RATE_LIMIT_WINDOW < tNext := hnext
    simp [handleBehaviorEvent, checkRateLimit, hroll]

/-- Closed witness for c6_rate_limit: 101 submissions at times 0, then 99
times 1 ms, then 900 ms, all inside the 900 ms span; the rollover submission
happens at 2000 ms. -/
theorem c6_rate_limit_witness :
    (List.replicate 99 ((1 : Nat), (5 : Nat))).length = 99 ∧
    (∀ p ∈ List.replicate 99 ((1 : Nat), (5 : Nat)),
      0 ≤ (p : Nat × Nat).1 ∧ (p : Nat × Nat).1 ≤ 0 + 900) ∧
    0 ≤ 900 ∧ 900 ≤ 0 + 900 ∧ 0 + RATE_LIMIT_WINDOW < 2000 ∧
    (runSubmissions
        ((0, 0) :: List.replicate 99 ((1 : Nat), (5 : Nat)) ++ [(900, 999)])
        none []
      = (List.replicate 100 Ack.success ++ [Ack.RATE_LIMIT_EXCEEDED],
         some ⟨100, 0 + RATE_LIMIT_WINDOW⟩,
         appendAll []
           ((0 : Nat) :: (List.replicate 99 ((1 : Nat), (5 : Nat))).map Prod.snd)) ∧
     (handleBehaviorEvent true 2000 (some ⟨100, 0 + RATE_LIMIT_WINDOW⟩)
        [] 7).1 = Ack.success) :=
  ⟨by decide, by decide, by decide, by decide, by decide,
    c6_rate_limit 0 0 900 999 2000 7 (List.replicate 99 ((1 : Nat), (5 : Nat)))
      [] [] (by decide) (by decide) (by decide) (by decide) (by decide)⟩

/-- C7: for a student with at least one registered connection and no earlier
delivery on record, two publish calls within 30 s of each other deliver
exactly one live update: the first records the throttle timestamp and emits
to every registered connection of the student, and the second emits nothing
and leaves the state untouched (dropped silently). -/
theorem c7_throttle_single_delivery (st : DistributorState) (t1 t2 : Nat)
    (hfresh : st.lastUpdate = none) (hpos : 0 < t1) (h12 : t1 ≤ t2)
    (hwin : t2 - t1 < CLR_UPDATE_INTERVAL) (hconn : st.connections ≠ []) :
    (broadcastCLRUpdate t1 st).2 = st.connections ∧
    (broadcastCLRUpdate t1 st).1.lastUpdate = some t1 ∧
    (broadcastCLRUpdate t2 (broadcastCLRUpdate t1 st).1).2 = [] ∧
    (broadcastCLRUpdate t2 (broadcastCLRUpdate t1 st).1).1
      = (broadcastCLRUpdate t1 st).1 := by
  have hlen : ¬ st.connections.length = 0 := by
    simpa [List.length_eq_zero] using hconn
  have hfirst : broadcastCLRUpdate t1 st
      = ({ st with lastUpdate := some t1 }, st.connections) := by
    simp [broadcastCLRUpdate, hfresh, hlen]
  have hthr : (decide (t1 ≠ 0) && decide (t2 - t1 < CLR_UPDATE_INTERVAL)) = true := by
    simp only [Bool.and_eq_true, decide_eq_true_eq]
    omega
  have hsecond : broadcastCLRUpdate t2 ({ st with lastUpdate := some t1 })
      = ({ st with lastUpdate := some t1 }, []) := by
    simp only [broadcastCLRUpdate]
    rw [hthr]
    simp
  rw [hfirst]
  simp [hsecond]

/-- Closed witness for c7_throttle_single_delivery. -/
theorem c7_throttle_single_delivery_witness :
    ((⟨none, ["sock1"]⟩ : DistributorState).lastUpdate = none ∧
      0 < 1000 ∧ 1000 ≤ 20000 ∧ 20000 - 1000 < CLR_UPDATE_INTERVAL ∧
      (⟨none, ["sock1"]⟩ : DistributorState).connections ≠ []) ∧
    ((broadcastCLRUpdate 1000 ⟨none, ["sock1"]⟩).2
        = (⟨none, ["sock1"]⟩ : DistributorState).connections ∧
      (broadcastCLRUpdate 1000 ⟨none, ["sock1"]⟩).1.lastUpdate = some 1000 ∧
      (broadcastCLRUpdate 20000 (broadcastCLRUpdate 1000 ⟨none, ["sock1"]⟩).1).2
        = [] ∧
      (broadcastCLRUpdate 20000 (broadcastCLRUpdate 1000 ⟨none, ["sock1"]⟩).1).1
        = (broadcastCLRUpdate 1000 ⟨none, ["sock1"]⟩).1) :=
  ⟨⟨rfl, by decide, by decide, by decide, by decide⟩,
    c7_throttle_single_delivery ⟨none, ["sock1"]⟩ 1000 20000 rfl (by decide)
      (by decide) (by decide) (by decide)⟩

/-- C10: broadcastCLRUpdate records the throttle timestamp BEFORE looking up
the connections, so for a student with zero registered connections an
unthrottled publish delivers nothing yet still consumes the throttle slot:
the timestamp is recorded, and a second publish within the next 30 s is
dropped (emits nothing and leaves the state unchanged) even though no update
was ever delivered. -/
theorem c10_throttle_consumed_without_connections (t1 t2 : Nat)
    (hpos : 0 < t1) (h12 : t1 ≤ t2) (hwin : t2 - t1 < CLR_UPDATE_INTERVAL) :
    (broadcastCLRUpdate t1 ⟨none, []⟩).2 = [] ∧
    (broadcastCLRUpdate t1 ⟨none, []⟩).1.lastUpdate = some t1 ∧
    (broadcastCLRUpdate t2 (broadcastCLRUpdate t1 ⟨none, []⟩).1).2 = [] ∧
    (broadcastCLRUpdate t2 (broadcastCLRUpdate t1 ⟨none, []⟩).1).1
      = (broadcastCLRUpdate t1 ⟨none, []⟩).1 := by
  have hfirst : broadcastCLRUpdate t1 (⟨none, []⟩ : DistributorState)
      = (⟨some t1, []⟩, []) := by
    simp [broadcastCLRUpdate]
  have hthr : (decide (t1 ≠ 0) && decide (t2 - t1 < CLR_UPDATE_INTERVAL)) = true := by
    simp only [Bool.and_eq_true, decide_eq_true_eq]
    omega
  have hsecond : broadcastCLRUpdate t2 (⟨some t1, []⟩ : DistributorState)
      = (⟨some t1, []⟩, []) := by
    simp only [broadcastCLRUpdate]
    rw [hthr]
    simp
  rw [hfirst]
  simp [hsecond]

/-- Closed witness for c10_throttle_consumed_without_connections. -/
theorem c10_throttle_consumed_without_connections_witness :
    (0 < 1000 ∧ 1000 ≤ 20000 ∧ 20000 - 1000 < CLR_UPDATE_INTERVAL) ∧
    ((broadcastCLRUpdate 1000 ⟨none, []⟩).2 = [] ∧
      (broadcastCLRUpdate 1000 ⟨none, []⟩).1.lastUpdate = some 1000 ∧
      (broadcastCLRUpdate 20000 (broadcastCLRUpdate 1000 ⟨none, []⟩).1).2 = [] ∧
      (broadcastCLRUpdate 20000 (broadcastCLRUpdate 1000 ⟨none, []⟩).1).1
        = (broadcastCLRUpdate 1000 ⟨none, []⟩).1) :=
  ⟨⟨by decide, by decide, by decide⟩,
    c10_throttle_consumed_without_connections 1000 20000 (by decide) (by decide)
      (by decide)⟩

theorem mainSweep_attempted (fails : String → Bool) (sids : List String) :
    (mainSweep fails sids).1 = sids := by
  induction sids with
  | nil => rfl
  | cons sid rest ih =>
      cases h : fails sid with
      | true => simp [mainSweep, processBatchEx, h, ih]
      | false => simp [mainSweep, processBatchEx, h, ih]

/-- C8: the retry behavior of persistAggregatedData (session present).
First conjunct: if the first k attempts fail with non-constraint errors
(k < 3) and attempt k then succeeds or hits the unique-constraint violation,
the whole call returns success — a P2002 is treated as already-written, not
retried, not an error — after exponential backoff delays of 2 ^ a seconds
for a = 1 .. k.  Second conjunct: three non-constraint failures exhaust the
retries and surface the terminal failure (with the two backoff delays of 2 s
and 4 s in between).  Third conjunct: the terminal failure is scoped to that
session only — in the main sweep every enumerated session is still attempted
no matter which sessions fail. -/
theorem c8_persist_retry (outcomes : Nat → DbOutcome) :
    (∀ k, k < 3 → (∀ j, j < k → outcomes j = DbOutcome.otherError) →
      (outcomes k = DbOutcome.ok ∨ outcomes k = DbOutcome.uniqueViolation) →
      persistAggregatedData true outcomes
        = (PersistResult.success, (List.range k).map (fun j => 2 ^ (j + 1) * 1000))) ∧
    ((∀ j, j < 3 → outcomes j = DbOutcome.otherError) →
      persistAggregatedData true outcomes
        = (PersistResult.terminalFailure, [2000, 4000])) ∧
    (∀ (fails : String → Bool) (sids : List String),
      (mainSweep fails sids).1 = sids) := by
  refine ⟨?_, ?_, fun fails sids => mainSweep_attempted fails sids⟩
  · intro k hk hprev hlast
    interval_cases k
    · rcases hlast with h | h <;>
        simp [persistAggregatedData, persistGo, h]
    · have h0 : outcomes 0 = DbOutcome.otherError := hprev 0 (by omega)
      rcases hlast with h | h <;>
        simp [persistAggregatedData, persistGo, h0, h, maxRetries] <;> decide
    · have h0 : outcomes 0 = DbOutcome.otherError := hprev 0 (by omega)
      have h1 : outcomes 1 = DbOutcome.otherError := hprev 1 (by omega)
      rcases hlast with h | h <;>
        simp [persistAggregatedData, persistGo, h0, h1, h, maxRetries] <;> decide
  · intro hall
    have h0 : outcomes 0 = DbOutcome.otherError := hall 0 (by omega)
    have h1 : outcomes 1 = DbOutcome.otherError := hall 1 (by omega)
    have h2 : outcomes 2 = DbOutcome.otherError := hall 2 (by omega)
    simp [persistAggregatedData, persistGo, h0, h1, h2, maxRetries]

/-- Closed witness for c8_persist_retry: one non-constraint failure followed
by a unique-constraint violation on the retry ends in success after a single
2 s backoff. -/
theorem c8_persist_retry_witness :
    (1 : Nat) < 3 ∧
    persistAggregatedData true
        (fun j => if j = 0 then DbOutcome.otherError else DbOutcome.uniqueViolation)
      = (PersistResult.success, (List.range 1).map (fun j => 2 ^ (j + 1) * 1000)) :=
  ⟨by decide,
    (c8_persist_retry
        (fun j => if j = 0 then DbOutcome.otherError else DbOutcome.uniqueViolation)).1
      1 (by decide)
      (fun j hj => by interval_cases j <;> rfl)
      (Or.inr (by rfl))⟩

/-- C9 counterexample.  Two sessions are in the pending-flush set; processing
the first raises.  The single catch around the whole pending-flush loop stops
the loop: the second pending session is NOT processed in that tick (and
neither session is removed from the set), so a failure in one session does
prevent the remaining sessions of the same tick from being processed. -/
theorem c9_counterexample :
    pendingDrain (fun s => decide (s = "s1")) ["s1", "s2"] = (["s1"], []) ∧
    "s2" ∉ (pendingDrain (fun s => decide (s = "s1")) ["s1", "s2"]).1 := by
  refine ⟨rfl, ?_⟩
  decide

/-- C9 amended: in the MAIN sweep loop of processAllSessions every enumerated
session is attempted regardless of which sessions fail (per-session
try/catch, failures counted and logged), and no failure escapes the
scheduler loop (both loops are functions returning plainly in this model, the
catches being where the source swallows the errors); but in the
pending-flush drain the sessions attempted in a tick are only the failure-free
prefix of the pending list plus the first failing session — a failure there
aborts the rest of the drain for that tick — and only the failure-free prefix
is removed from the pending set. -/
theorem c9_amended (fails : String → Bool) (sids pending : List String) :
    (mainSweep fails sids).1 = sids ∧
    (pendingDrain fails pending).1
      = pending.takeWhile (fun s => ! fails s)
          ++ (pending.dropWhile (fun s => ! fails s)).take 1 ∧
    (pendingDrain fails pending).2 = pending.takeWhile (fun s => ! fails s) := by
  refine ⟨mainSweep_attempted fails sids, ?_, ?_⟩
  · induction pending with
    | nil => rfl
    | cons sid rest ih =>
        cases h : fails sid with
        | true =>
            simp [pendingDrain, processBatchEx, h, List.takeWhile_cons,
              List.dropWhile_cons]
        | false =>
            simp [pendingDrain, processBatchEx, h, List.takeWhile_cons,
              List.dropWhile_cons, ih]
  · induction pending with
    | nil => rfl
    | cons sid rest ih =>
        cases h : fails sid with
        | true =>
            simp [pendingDrain, processBatchEx, h, List.takeWhile_cons]
        | false =>
            simp [pendingDrain, processBatchEx, h, List.takeWhile_cons, ih]
